import Mathlib

/-!
Shallow embedding of the research-assistant frontend paper-aggregation
helpers, translated from the TypeScript source:

* `ResearchDetails.tsx` — `createSummaryReport`, `handleExportCSV`,
  `handleExportBibtex`;
* `services/api.ts` — `startResearch` (payload defaulting);
* `hooks/useResearch.ts` — the `refetchInterval` callback of `useResearchStatus`.

JavaScript-specific semantics (truthiness of `0`, the empty string, `null`/`undefined`;
in-place `Array.prototype.sort`; object-key insertion order; string coercion
of `null`) are modelled explicitly and noted at each definition.
-/

namespace ResearchAssistant

/-- A paper record as consumed by `ResearchDetails.tsx` (the component types
its `sources` as `any`; these are the fields it actually reads).  Nullable /
possibly-absent fields are `Option`s; `none` stands for JS `null`/`undefined`. -/
structure Source where
  id : Nat
  title : String
  authors : Option (List String)
  year : Option Int
  venue : Option String
  citation_count : Int
  doi : Option String
  url : Option String
  pdf_url : Option String
  source : Option String
  summary : Option String
  deriving Repr, DecidableEq

/-- JS truthiness of a nullable integer: `null`/`undefined` and `0` are falsy. -/
def truthyInt : Option Int → Bool
  | none => false
  | some n => n != 0

/-- JS truthiness of a nullable string: `null`/`undefined` and `""` are falsy. -/
def truthyStr : Option String → Bool
  | none => false
  | some s => s != ""

/-- JS truthiness of `xs?.length` for a nullable array: falsy iff the array is
absent or empty (an array value itself is always truthy in JS). -/
def truthyLen {α : Type} : Option (List α) → Bool
  | none => false
  | some l => l.length != 0

/-- JS object-key coercion for a nullable string: `undefined` used as an object
key becomes the string `"undefined"` (in `acc[s.venue]` / `acc[s.source]`). -/
def jsKey : Option String → String
  | none => "undefined"
  | some s => s

/-- `Math.min(...xs)`: fold of binary min over the array.  On an empty array JS
yields `Infinity`; every call site guards non-emptiness, so the `[]` branch is
an arbitrary placeholder. -/
def jsMathMin : List Int → Int
  | [] => 0
  | y :: ys => ys.foldl min y

/-- `Math.max(...xs)`: fold of binary max over the array; `[]` branch as in
`jsMathMin`. -/
def jsMathMax : List Int → Int
  | [] => 0
  | y :: ys => ys.foldl max y

/-- One step of the `reduce((acc, s) => { acc[k] = (acc[k] || 0) + 1; ... }, {})`
frequency count: increment key `k` in place, or append it with count 1.
The association list mirrors the string keys of a JS object in insertion order. -/
def bump (k : String) : List (String × Nat) → List (String × Nat)
  | [] => [(k, 1)]
  | (k', n) :: rest => if k' = k then (k', n + 1) :: rest else (k', n) :: bump k rest

/-- The whole frequency-count `reduce`, left to right over the array. -/
def freqMap (keys : List String) : List (String × Nat) :=
  keys.foldl (fun acc k => bump k acc) []

/-- Count of a key in a JS-object association list (`0` when absent, as
`acc[k] || 0` reads it). -/
def lookupCount (k : String) : List (String × Nat) → Nat
  | [] => 0
  | (k', n) :: rest => if k' = k then n else lookupCount k rest

/-- Stable insertion of a paper into a list already sorted by strictly
descending order of `citation_count`: the inserted element goes before the
first element whose count is `≤` its own, matching the stable in-place
`sort((a, b) => b.citation_count - a.citation_count)`. -/
def insertByCitDesc (p : Source) : List Source → List Source
  | [] => [p]
  | q :: rest =>
      if q.citation_count ≤ p.citation_count then p :: q :: rest
      else q :: insertByCitDesc p rest

/-- The stable sort `sources.sort((a, b) => b.citation_count - a.citation_count)`
(ECMAScript `Array.prototype.sort` is required to be stable).  NOTE: in the
source this sort happens IN PLACE on the argument array. -/
def sortByCitDesc : List Source → List Source
  | [] => []
  | p :: rest => insertByCitDesc p (sortByCitDesc rest)

/-- Entry of `top_cited`: `{ title, citation_count, year }`. -/
structure TopCitedEntry where
  title : String
  citation_count : Int
  year : Option Int
  deriving Repr, DecidableEq

/-- The summary report object built by `createSummaryReport`. -/
structure SummaryReport where
  total_papers : Nat
  date_range : String
  sources : List (String × Nat)
  top_venues : List (String × Nat)
  avg_citations : ℚ
  papers_with_pdf : Nat
  top_cited : List TopCitedEntry
  deriving Repr, DecidableEq

/-- `sources.map(s => s.year).filter(y => y)`: the truthy years — `null` and
`0` are both dropped (JS truthiness). -/
def truthyYears (sources : List Source) : List Int :=
  (sources.filterMap Source.year).filter (fun y => y != 0)

/-- `createSummaryReport` from `ResearchDetails.tsx` lines 16–37.  The object
fields are evaluated top to bottom; the `top_cited` field sorts the argument
array IN PLACE, so the function returns both the report and the post-call
contents of its argument array (every earlier field is computed before the
sort runs).  `avg_citations` is `sum / length || 0`: for an empty array the
division is `NaN` (falsy), so the `|| 0` yields 0; otherwise the quotient is
returned (a quotient of 0 is also mapped to 0 by `|| 0`, which is the same
value). -/
def createSummaryReport (sources : List Source) : SummaryReport × List Source :=
  let years := truthyYears sources
  let report : SummaryReport :=
    { total_papers := sources.length
      date_range :=
        if years.length != 0 then
          toString (jsMathMin years) ++ "-" ++ toString (jsMathMax years)
        else "N/A"
      sources := freqMap (sources.map (fun s => jsKey s.source))
      top_venues := freqMap (sources.map (fun s => jsKey s.venue))
      avg_citations :=
        if sources.length = 0 then 0
        else ((sources.map Source.citation_count).sum : ℚ) / (sources.length : ℚ)
      papers_with_pdf := (sources.filter (fun s => truthyStr s.pdf_url)).length
      top_cited :=
        ((sortByCitDesc sources).take 5).map (fun s =>
          { title := s.title, citation_count := s.citation_count, year := s.year }) }
  (report, sortByCitDesc sources)

/-! ## CSV export (`handleExportCSV`, lines 49–63) -/

/-- One row of the CSV export: the exact column set built in
`research.sources.map(source => ({ Title, URL, Summary, DOI, Citations }))`. -/
structure CsvRow where
  Title : String
  URL : Option String
  Summary : Option String
  DOI : Option String
  Citations : Int
  deriving Repr, DecidableEq

/-- The row built for one source. -/
def csvRow (s : Source) : CsvRow :=
  { Title := s.title
    URL := s.url
    Summary := s.summary
    DOI := s.doi
    Citations := s.citation_count }

/-- Data payload that `handleExportCSV` hands to `Papa.unparse`: one row per
source, in order. -/
def handleExportCSV (sources : List Source) : List CsvRow :=
  sources.map csvRow

/-- The column headers of the generated CSV (the keys of each row object). -/
def csvColumns : List String :=
  ["Title", "URL", "Summary", "DOI", "Citations"]

/-- The canonical Paper fields per the data model of the spec (§3), used to state
the field-completeness claim about the CSV export. -/
def canonicalPaperFields : List String :=
  ["id", "title", "authors", "year", "venue", "citation_count", "doi",
   "url", "pdf_url", "abstract", "source_providers", "relevance_score"]

/-! ## BibTeX export (`handleExportBibtex`, lines 65–84) -/

/-- A word character in the sense of the JS regex `\w`: ASCII letter, digit,
or underscore (`replace(/[^\w]/g, '')` keeps exactly these). -/
def isWordChar (c : Char) : Bool :=
  c.isAlphanum || c == '_'

/-- JS string coercion of a nullable integer (template/`+` concatenation):
a number prints in decimal; JSON `null` prints as `"null"`. -/
def jsIntString : Option Int → String
  | none => "null"
  | some n => toString n

/-- The citation key
`paper.title.toLowerCase().replace(/[^\w]/g, '').slice(0, 20) + paper.year`:
lower-case the title, drop every non-word character, keep the first 20
characters, append the string coercion of the year. -/
def bibtexKey (p : Source) : String :=
  ⟨(((p.title.data.map Char.toLower).filter isWordChar).take 20)⟩ ++ jsIntString p.year

/-- Entry type `paper.venue ? "article" : "misc"` (empty-string venue is falsy). -/
def entryType (p : Source) : String :=
  if truthyStr p.venue then "article" else "misc"

/-- The `name = {value},\n` lines appended for one paper, as (name, value)
pairs in emission order.  Each optional line is guarded by the JS truthiness
of the datum it prints: `authors?.length`, `year`, `venue`, `doi`, `pdf_url`
(the BibTeX `url` field is printed from `paper.pdf_url`). -/
def bibtexFields (p : Source) : List (String × String) :=
  [("title", p.title)]
  ++ (if truthyLen p.authors then
        [("author", String.intercalate " and " (p.authors.getD []))] else [])
  ++ (if truthyInt p.year then [("year", jsIntString p.year)] else [])
  ++ (if truthyStr p.venue then [("journal", p.venue.getD "")] else [])
  ++ (if truthyStr p.doi then [("doi", p.doi.getD "")] else [])
  ++ (if truthyStr p.pdf_url then [("url", p.pdf_url.getD "")] else [])

/-- Rendering of one field line `  name = {value},\n`. -/
def fieldLine (f : String × String) : String :=
  "  " ++ f.1 ++ " = \x7b" ++ f.2 ++ "\x7d,\n"

/-- JS `String.prototype.trimEnd()`: strips trailing whitespace.  (The source
calls `trimEnd(", n")`, but `trimEnd` ignores its argument, so only the
trailing newline is removed and the comma of the last field line survives.) -/
def jsTrimEnd (s : String) : String :=
  ⟨(s.data.reverse.dropWhile Char.isWhitespace).reverse⟩

/-- The chunk of BibTeX text produced for one paper by one loop iteration:
header line, field lines, then `trimEnd` and the closing `\n}\n\n`.  The
`trimEnd` of the whole accumulator only ever strips characters of the current
entry (every previous entry ends in `}`), so the loop is chunk-by-chunk. -/
def bibtexEntry (p : Source) : String :=
  jsTrimEnd ("@" ++ entryType p ++ "\x7b" ++ bibtexKey p ++ ",\n"
      ++ String.join ((bibtexFields p).map fieldLine))
    ++ "\n\x7d\n\n"

/-- The entries of the exported document, one per paper, in order. -/
def bibtexEntries (sources : List Source) : List String :=
  sources.map bibtexEntry

/-- The full `.bib` document accumulated by `handleExportBibtex`. -/
def handleExportBibtex (sources : List Source) : String :=
  String.join (bibtexEntries sources)

/-! ## Payload defaulting (`startResearch` helper in `services/api.ts`) -/

/-- The payload handed to the `startResearch` helper; every field may be
absent (`none` = JS `undefined`/`null`). -/
structure StartPayload where
  source_types : Option (List String)
  max_results : Option Int
  include_summary : Option Bool
  language : Option String
  deriving Repr, DecidableEq

/-- The payload after the four defaulting assignments of the helper; every field
is populated. -/
structure SentPayload where
  source_types : List String
  max_results : Int
  include_summary : Bool
  language : String
  deriving Repr, DecidableEq

/-- The four assignments of the `startResearch` helper:
`payload.source_types = payload.source_types || ["academic"]` (an array value
is always truthy, so only an absent field is replaced);
`payload.max_results = payload.max_results || 20` (absent or `0` replaced);
`payload.include_summary = payload.include_summary ?? true` (nullish
coalescing: only absent replaced, `false` preserved);
`payload.language = payload.language || "en"` (absent or `""` replaced). -/
def startResearch (p : StartPayload) : SentPayload :=
  { source_types := p.source_types.getD ["academic"]
    max_results := if truthyInt p.max_results then p.max_results.getD 0 else 20
    include_summary := p.include_summary.getD true
    language := if truthyStr p.language then p.language.getD "" else "en" }

/-! ## Status polling (`useResearchStatus` in `hooks/useResearch.ts`) -/

/-- The slice of `ResearchStatusResponse` the interval callback reads. -/
structure StatusData where
  status : String
  deriving Repr, DecidableEq

/-- The `refetchInterval` callback: reads `query.data` (absent before the
first fetch), returns 2000 (ms) while the reported status is `"pending"` or
`"in_progress"`, and `false` (modelled `none`) otherwise — `none` stops the
polling. -/
def refetchInterval (lastData : Option StatusData) : Option Nat :=
  match lastData with
  | some d =>
      if d.status = "pending" || d.status = "in_progress" then some 2000
      else none
  | none => none

/-! ## Claim-side definitions (written from the wording of the spec, for
refinement comparison against the code embedding above) -/

/-- Date range as the spec words it: computed from the papers with a
non-null year (minimum to maximum), `"N/A"` when no paper has a year. -/
def claimDateRange (l : List Source) : String :=
  let ys := l.filterMap Source.year
  if ys = [] then "N/A"
  else toString (jsMathMin ys) ++ "-" ++ toString (jsMathMax ys)

/-- Date range as amended: computed from the papers with a non-null,
non-zero year (JS truthiness also drops year 0). -/
def amendedDateRange (l : List Source) : String :=
  let ys := (l.filterMap Source.year).filter (fun y => decide (y ≠ 0))
  if ys = [] then "N/A"
  else toString (jsMathMin ys) ++ "-" ++ toString (jsMathMax ys)

/-- Citation key as the claim words it: the lower-cased, alphanumeric-only
first 20 characters of the title concatenated with the year. -/
def claimCitationKey (p : Source) (y : Int) : String :=
  ⟨((p.title.data.map Char.toLower).filter Char.isAlphanum).take 20⟩ ++ toString y

/-- Citation key as amended: word characters (letters, digits, underscore)
are kept, not just alphanumeric ones.  Stated with the filter applied to the
original title and the lower-casing after it, which the amended claim asserts
to coincide with the code (filter and case-mapping commute on word
characters). -/
def amendedCitationKey (p : Source) (y : Int) : String :=
  ⟨((p.title.data.filter isWordChar).map Char.toLower).take 20⟩ ++ toString y

/-! ## Concrete example inputs for counterexamples and witnesses -/

/-- A source with every nullable field absent and zero citations. -/
def baseSource : Source :=
  { id := 0, title := "", authors := none, year := none, venue := none,
    citation_count := 0, doi := none, url := none, pdf_url := none,
    source := none, summary := none }

/-- Title `"a"`, 1 citation. -/
def srcLowCited : Source := { baseSource with title := "a", citation_count := 1 }

/-- Title `"b"`, 2 citations. -/
def srcHighCited : Source := { baseSource with title := "b", citation_count := 2 }

/-- A titled, dated source; listed twice it yields two identical citation
keys. -/
def srcDup : Source := { baseSource with title := "Deep Learning", year := some 2020 }

/-- A title containing an underscore and punctuation, keeping year 2020. -/
def srcUnderscore : Source := { baseSource with title := "A_b! c", year := some 2020 }

/-- A source whose year is the (falsy) integer 0. -/
def srcYearZero : Source := { baseSource with year := some 0 }

/-- Year 1999, all other fields default. -/
def srcYearA : Source := { baseSource with year := some 1999 }

/-- Year 2005, all other fields default — differs from `srcYearA` only in
the year. -/
def srcYearB : Source := { baseSource with year := some 2005 }

/-- A source at a given venue. -/
def venueSrc (v : String) : Source := { baseSource with venue := some v }

/-- Six sources at six pairwise distinct venues. -/
def sixVenueList : List Source :=
  [venueSrc "V1", venueSrc "V2", venueSrc "V3",
   venueSrc "V4", venueSrc "V5", venueSrc "V6"]

/-- A start payload with absent `source_types`/`language`, a falsy
`max_results` of 0, and an explicit `include_summary = false`. -/
def examplePayload : StartPayload :=
  { source_types := none, max_results := some 0,
    include_summary := some false, language := none }

/-! ## Reduction helpers: the record fields of `createSummaryReport` -/

/-- The post-call contents of the argument array are its stable sort by
descending citation count. -/
theorem summaryReport_snd (l : List Source) :
    (createSummaryReport l).2 = sortByCitDesc l := rfl

/-- The `avg_citations` field unfolded. -/
theorem summaryReport_avg (l : List Source) :
    (createSummaryReport l).1.avg_citations =
      if l.length = 0 then 0
      else ((l.map Source.citation_count).sum : ℚ) / (l.length : ℚ) := rfl

/-- The `top_venues` field unfolded. -/
theorem summaryReport_top_venues (l : List Source) :
    (createSummaryReport l).1.top_venues
      = freqMap (l.map (fun s => jsKey s.venue)) := rfl

/-- The `date_range` field unfolded. -/
theorem summaryReport_date_range (l : List Source) :
    (createSummaryReport l).1.date_range =
      if (truthyYears l).length != 0 then
        toString (jsMathMin (truthyYears l)) ++ "-" ++ toString (jsMathMax (truthyYears l))
      else "N/A" := rfl

/-! ## C2 — average citations: guarded division, never negative -/

/-- C2: for the empty paper list `avg_citations` is 0 (the division is
guarded by the `|| 0` fallback), and whenever every citation count is
non-negative the average is non-negative. -/
theorem avg_citations_empty_zero_and_nonneg :
    (createSummaryReport []).1.avg_citations = 0 ∧
    ∀ l : List Source, (∀ s ∈ l, 0 ≤ s.citation_count) →
      0 ≤ (createSummaryReport l).1.avg_citations := by
  constructor
  · rfl
  · intro l h
    rw [summaryReport_avg]
    split
    · exact le_refl 0
    · apply div_nonneg
      · have hsum : 0 ≤ (l.map Source.citation_count).sum := by
          apply List.sum_nonneg
          intro x hx
          obtain ⟨s, hs, rfl⟩ := List.mem_map.1 hx
          exact h s hs
        exact_mod_cast hsum
      · exact Nat.cast_nonneg _

/-- C2 witness: the non-negativity conclusion at a concrete two-paper list. -/
theorem avg_citations_witness :
    0 ≤ (createSummaryReport [srcLowCited, srcHighCited]).1.avg_citations :=
  avg_citations_empty_zero_and_nonneg.2 [srcLowCited, srcHighCited] (by decide)

/-! ## C3 — the summary computation mutates its input list -/

/-- Inserting into the sorted list is a permutation of consing. -/
theorem insertByCitDesc_perm (p : Source) (l : List Source) :
    (insertByCitDesc p l).Perm (p :: l) := by
  induction l with
  | nil => exact List.Perm.refl _
  | cons q rest ih =>
      simp only [insertByCitDesc]
      split
      · exact List.Perm.refl _
      · exact (ih.cons q).trans (List.Perm.swap p q rest)

/-- The citation sort permutes the list. -/
theorem sortByCitDesc_perm (l : List Source) : (sortByCitDesc l).Perm l := by
  induction l with
  | nil => exact List.Perm.refl _
  | cons p rest ih =>
      exact (insertByCitDesc_perm p (sortByCitDesc rest)).trans (ih.cons p)

/-- C3 counterexample: on a two-paper list whose citation counts ascend, the
argument array after `createSummaryReport` differs from the input — the
in-place `sort` inside `top_cited` reordered it. -/
theorem summary_mutates_input_cex :
    (createSummaryReport [srcLowCited, srcHighCited]).2 ≠ [srcLowCited, srcHighCited] := by
  decide

/-- C3 as amended: the call keeps exactly the same paper records with the
same field values — as a multiset — but may reorder the argument list (it is
left stably sorted by descending citation count), so order is not
preserved. -/
theorem summary_preserves_multiset (l : List Source) :
    ((createSummaryReport l).2).Perm l := by
  rw [summaryReport_snd]
  exact sortByCitDesc_perm l

/-! ## C10 — polling stops on terminal status -/

/-- C10: the interval callback returns no interval (false) as soon as the
reported status is anything other than `"pending"` or `"in_progress"` (and
when no data has arrived yet), and returns 2000 ms while the status is
`"pending"` or `"in_progress"`. -/
theorem refetch_stops_on_terminal (d : StatusData) :
    (d.status ≠ "pending" ∧ d.status ≠ "in_progress" →
      refetchInterval (some d) = none) ∧
    (d.status = "pending" ∨ d.status = "in_progress" →
      refetchInterval (some d) = some 2000) ∧
    refetchInterval none = none := by
  refine ⟨?_, ?_, rfl⟩
  · intro h
    simp [refetchInterval, h.1, h.2]
  · intro h
    rcases h with h | h <;> simp [refetchInterval, h]

/-- C10 witness: terminal `"completed"` stops polling, `"pending"` polls at
2000 ms. -/
theorem refetch_stops_on_terminal_witness :
    refetchInterval (some { status := "completed" }) = none ∧
    refetchInterval (some { status := "pending" }) = some 2000 :=
  ⟨(refetch_stops_on_terminal { status := "completed" }).1 (by decide),
   (refetch_stops_on_terminal { status := "pending" }).2.1 (Or.inl rfl)⟩

/-! ## C9 — payload defaulting in the `startResearch` helper -/

/-- C9: the sent payload has `source_types`, `max_results`,
`include_summary` and `language` populated: an absent `source_types` becomes
`["academic"]` (a present array is kept, arrays being truthy); an absent or
falsy (0) `max_results` becomes 20; `include_summary` uses nullish
coalescing, so an explicit `false` is preserved and only an absent value
becomes `true`; an absent or empty `language` becomes `"en"`. -/
theorem startResearch_defaults (p : StartPayload) :
    (p.source_types = none → (startResearch p).source_types = ["academic"]) ∧
    (∀ l, p.source_types = some l → (startResearch p).source_types = l) ∧
    ((p.max_results = none ∨ p.max_results = some 0) → (startResearch p).max_results = 20) ∧
    (∀ n, p.max_results = some n → n ≠ 0 → (startResearch p).max_results = n) ∧
    (p.include_summary = none → (startResearch p).include_summary = true) ∧
    (∀ b, p.include_summary = some b → (startResearch p).include_summary = b) ∧
    ((p.language = none ∨ p.language = some "") → (startResearch p).language = "en") ∧
    (∀ s, p.language = some s → s ≠ "" → (startResearch p).language = s) := by
  refine ⟨?_, ?_, ?_, ?_, ?_, ?_, ?_, ?_⟩
  · intro h; simp [startResearch, h]
  · intro l h; simp [startResearch, h]
  · rintro (h | h) <;> simp [startResearch, h, truthyInt]
  · intro n h hn; simp [startResearch, h, truthyInt, hn]
  · intro h; simp [startResearch, h]
  · intro b h; simp [startResearch, h]
  · rintro (h | h) <;> simp [startResearch, h, truthyStr]
  · intro s h hs; simp [startResearch, h, truthyStr, hs]

/-- C9 witness: on a payload with absent `source_types`/`language`,
`max_results = 0` and `include_summary = false`, the sent payload is
`["academic"]`, 20, `false` (preserved), `"en"`. -/
theorem startResearch_defaults_witness :
    (startResearch examplePayload).source_types = ["academic"] ∧
    (startResearch examplePayload).max_results = 20 ∧
    (startResearch examplePayload).include_summary = false ∧
    (startResearch examplePayload).language = "en" := by
  have h := startResearch_defaults examplePayload
  exact ⟨h.1 rfl, h.2.2.1 (Or.inr rfl), h.2.2.2.2.2.1 false rfl, h.2.2.2.2.2.2.1 (Or.inl rfl)⟩

/-! ## C4 — `top_venues` is an untruncated frequency map -/

/-- Bumping a key increments its count. -/
theorem lookupCount_bump_self (k : String) (acc : List (String × Nat)) :
    lookupCount k (bump k acc) = lookupCount k acc + 1 := by
  induction acc with
  | nil => simp [bump, lookupCount]
  | cons kv rest ih =>
      obtain ⟨k', n⟩ := kv
      by_cases h : k' = k
      · simp [bump, lookupCount, h]
      · simp [bump, lookupCount, h, ih]

/-- Bumping one key leaves the count of any other key unchanged. -/
theorem lookupCount_bump_ne (j k : String) (hjk : j ≠ k) (acc : List (String × Nat)) :
    lookupCount j (bump k acc) = lookupCount j acc := by
  have hkj : ¬ (k = j) := fun hh => hjk hh.symm
  induction acc with
  | nil => simp [bump, lookupCount, hkj]
  | cons kv rest ih =>
      obtain ⟨k', n⟩ := kv
      by_cases h : k' = k
      · subst h
        simp [bump, lookupCount, hkj]
      · by_cases h2 : k' = j
        · subst h2
          simp [bump, lookupCount, h, hjk]
        · simp [bump, lookupCount, h, h2, ih]

/-- Folding the frequency `reduce` adds the number of occurrences of each
key to its count in the accumulator. -/
theorem lookupCount_foldl_bump (keys : List String) (acc : List (String × Nat)) (k : String) :
    lookupCount k (keys.foldl (fun a kk => bump kk a) acc)
      = lookupCount k acc + keys.count k := by
  induction keys generalizing acc with
  | nil => simp
  | cons k0 rest ih =>
      rw [List.foldl_cons, ih]
      by_cases h : k0 = k
      · subst h
        rw [lookupCount_bump_self]
        simp [List.count_cons]
        omega
      · rw [lookupCount_bump_ne k k0 (fun hh => h hh.symm) acc]
        simp [List.count_cons, h]

/-- Bumping either keeps the key set or appends the new key at the end. -/
theorem map_fst_bump (k : String) (acc : List (String × Nat)) :
    (bump k acc).map Prod.fst =
      if k ∈ acc.map Prod.fst then acc.map Prod.fst
      else acc.map Prod.fst ++ [k] := by
  induction acc with
  | nil => simp [bump]
  | cons kv rest ih =>
      obtain ⟨k', n⟩ := kv
      by_cases h : k' = k
      · subst h
        simp [bump]
      · by_cases hm : k ∈ rest.map Prod.fst
        · simp [bump, h, ih, hm, List.mem_cons]
        · simp [bump, h, ih, hm, List.mem_cons, Ne.symm h]

/-- Bumping preserves distinctness of the keys. -/
theorem nodup_map_fst_bump (k : String) (acc : List (String × Nat))
    (h : (acc.map Prod.fst).Nodup) : ((bump k acc).map Prod.fst).Nodup := by
  rw [map_fst_bump]
  split
  · exact h
  · rename_i hnot
    simp [List.nodup_append, h, hnot, List.disjoint_singleton]

/-- The whole frequency fold keeps the keys distinct. -/
theorem nodup_map_fst_foldl_bump (keys : List String) (acc : List (String × Nat))
    (h : (acc.map Prod.fst).Nodup) :
    ((keys.foldl (fun a kk => bump kk a) acc).map Prod.fst).Nodup := by
  induction keys generalizing acc with
  | nil => exact h
  | cons k0 rest ih =>
      rw [List.foldl_cons]
      exact ih _ (nodup_map_fst_bump k0 acc h)

/-- C4 counterexample: for six papers at six distinct venues, `top_venues`
has six entries — it is not truncated to the 5 highest-count venues. -/
theorem top_venues_not_truncated_cex :
    ¬ (((createSummaryReport sixVenueList).1.top_venues).length ≤ 5) := by
  decide

/-- C4 as amended: `top_venues` is the full frequency count of venues, with
one entry per distinct venue key (keys pairwise distinct, in first-appearance
order) whose count is the number of papers at that venue; there is no
truncation to 5 and no alphabetical tie-break. -/
theorem top_venues_full_freq (l : List Source) (k : String) :
    lookupCount k ((createSummaryReport l).1.top_venues)
      = (l.map (fun s => jsKey s.venue)).count k ∧
    (((createSummaryReport l).1.top_venues).map Prod.fst).Nodup := by
  rw [summaryReport_top_venues]
  constructor
  · rw [freqMap, lookupCount_foldl_bump]
    simp [lookupCount]
  · exact nodup_map_fst_foldl_bump _ [] (by simp)

/-! ## C6 — date range and the year-0 truthiness gap -/

/-- The truthy-year filter agrees with the decidable non-zero filter. -/
theorem truthyYears_decide (l : List Source) :
    truthyYears l = (l.filterMap Source.year).filter (fun y => decide (y ≠ 0)) := by
  unfold truthyYears
  apply List.filter_congr
  intro y _
  by_cases h : y = 0 <;> simp [h]

/-- C6 counterexample: a single paper with year 0 (non-null) yields
`"N/A"`, while the claimed non-null-only reading yields `"0-0"`. -/
theorem date_range_zero_year_cex :
    (createSummaryReport [srcYearZero]).1.date_range = "N/A" ∧
    claimDateRange [srcYearZero] = "0-0" ∧
    (createSummaryReport [srcYearZero]).1.date_range ≠ claimDateRange [srcYearZero] := by
  refine ⟨rfl, rfl, by decide⟩

/-- C6 as amended: `date_range` is the min–max span of the non-null,
non-zero years (JS truthiness also drops year 0), `"N/A"` when there is no
such year; on every list in which no paper has year 0 this coincides with
the original non-null-only reading. -/
theorem date_range_truthy_years (l : List Source) :
    (createSummaryReport l).1.date_range = amendedDateRange l ∧
    ((0 : Int) ∉ l.filterMap Source.year →
      (createSummaryReport l).1.date_range = claimDateRange l) := by
  have h1 : (createSummaryReport l).1.date_range = amendedDateRange l := by
    rw [summaryReport_date_range]
    unfold amendedDateRange
    rw [← truthyYears_decide]
    cases hys : truthyYears l with
    | nil => simp
    | cons y ys => simp
  refine ⟨h1, ?_⟩
  intro h0
  rw [h1]
  unfold amendedDateRange claimDateRange
  have : (l.filterMap Source.year).filter (fun y => decide (y ≠ 0))
      = l.filterMap Source.year := by
    apply List.filter_eq_self.2
    intro a ha
    have haz : a ≠ 0 := by
      intro hae
      subst hae
      exact h0 ha
    simp [haz]
  rw [this]

/-- C6 witness: at a one-paper list with year 1999 both readings give
`"1999-1999"`. -/
theorem date_range_truthy_years_witness :
    ((0 : Int) ∉ [srcYearA].filterMap Source.year) ∧
    (createSummaryReport [srcYearA]).1.date_range = amendedDateRange [srcYearA] ∧
    (createSummaryReport [srcYearA]).1.date_range = claimDateRange [srcYearA] :=
  ⟨by decide, (date_range_truthy_years [srcYearA]).1,
    (date_range_truthy_years [srcYearA]).2 (by decide)⟩

/-! ## C5 — the CSV export is not field-complete -/

/-- C5 counterexample: two papers that differ only in `year` export to the
same CSV row, so `year` (and likewise the other missing fields) appears as
no column of the export. -/
theorem csv_not_field_complete_cex :
    srcYearA.year ≠ srcYearB.year ∧ csvRow srcYearA = csvRow srcYearB := by
  exact ⟨by decide, rfl⟩

/-- C5 as amended: the CSV export serializes exactly the five columns
Title, URL, Summary, DOI, Citations, copied from `title`, `url`, `summary`,
`doi`, `citation_count`; it depends on no other Paper field (two papers
agreeing on those five export identically), and emits one row per paper. -/
theorem csv_exports_five_fields_only :
    (∀ a b : Source, a.title = b.title → a.url = b.url → a.summary = b.summary →
      a.doi = b.doi → a.citation_count = b.citation_count → csvRow a = csvRow b) ∧
    (∀ s : Source, (csvRow s).Title = s.title ∧ (csvRow s).URL = s.url ∧
      (csvRow s).Summary = s.summary ∧ (csvRow s).DOI = s.doi ∧
      (csvRow s).Citations = s.citation_count) ∧
    ∀ l : List Source, (handleExportCSV l).length = l.length := by
  refine ⟨?_, ?_, ?_⟩
  · intro a b h1 h2 h3 h4 h5
    simp [csvRow, h1, h2, h3, h4, h5]
  · intro s
    exact ⟨rfl, rfl, rfl, rfl, rfl⟩
  · intro l
    simp [handleExportCSV]

/-- C5 witness: the dependence statement applied at two concrete papers that
agree on the five exported fields and differ in `year`. -/
theorem csv_exports_five_fields_only_witness :
    srcYearA.title = srcYearB.title ∧ srcYearA.year ≠ srcYearB.year ∧
    csvRow srcYearA = csvRow srcYearB :=
  ⟨rfl, by decide, csv_exports_five_fields_only.1 srcYearA srcYearB rfl rfl rfl rfl rfl⟩

/-! ## C7 — entry type and citation key -/

/-- Lower-casing never moves a character in or out of the `\w` class. -/
theorem isWordChar_toLower (c : Char) : isWordChar (Char.toLower c) = isWordChar c := by
  have hc : c = Char.ofNat c.toNat := (Char.ofNat_toNat c).symm
  by_cases h : c.toNat ≥ 65 ∧ c.toNat ≤ 90
  · obtain ⟨h1, h2⟩ := h
    generalize hk : c.toNat = k at *
    subst hc
    interval_cases k <;> decide
  · have hl : Char.toLower c = c := by
      unfold Char.toLower
      simp [h]
    rw [hl]

/-- C7 counterexample: for the title `"A_b! c"` with year 2020 the code key
`"a_bc2020"` keeps the underscore, so it differs from the claimed
alphanumeric-only key `"abc2020"`. -/
theorem bibtex_key_underscore_cex :
    srcUnderscore.year = some 2020 ∧
    bibtexKey srcUnderscore ≠ claimCitationKey srcUnderscore 2020 := by
  exact ⟨rfl, by decide⟩

/-- C7 as amended: for every paper with a year, the entry type is `article`
exactly when the venue is present (non-null, non-empty) and `misc`
otherwise, and the citation key is the lower-cased, word-character-only
(letters, digits, and underscore — not alphanumeric-only) first 20
characters of the title concatenated with the year. -/
theorem bibtex_key_word_characters (p : Source) (y : Int) (hy : p.year = some y) :
    (truthyStr p.venue = true → entryType p = "article") ∧
    (truthyStr p.venue = false → entryType p = "misc") ∧
    bibtexKey p = amendedCitationKey p y := by
  refine ⟨?_, ?_, ?_⟩
  · intro h; simp [entryType, h]
  · intro h; simp [entryType, h]
  · unfold bibtexKey amendedCitationKey
    rw [hy]
    have hcomp : (isWordChar ∘ Char.toLower) = isWordChar := by
      funext c
      exact isWordChar_toLower c
    rw [List.filter_map, hcomp]
    rfl

/-- C7 witness: the amended statement at the underscore-titled paper. -/
theorem bibtex_key_word_characters_witness :
    srcUnderscore.year = some 2020 ∧
    entryType srcUnderscore = "misc" ∧
    bibtexKey srcUnderscore = amendedCitationKey srcUnderscore 2020 :=
  ⟨rfl, (bibtex_key_word_characters srcUnderscore 2020 rfl).2.1 (by decide),
    (bibtex_key_word_characters srcUnderscore 2020 rfl).2.2⟩

/-! ## C1 — one entry per paper, but keys can collide -/

/-- C1 counterexample: a two-element list repeating the same titled, dated
paper stays within the 100-paper bound and produces two entries whose
citation keys coincide — there is no synthetic-counter fallback. -/
theorem bibtex_duplicate_keys_cex :
    [srcDup, srcDup].length ≤ 100 ∧
    (bibtexEntries [srcDup, srcDup]).length = 2 ∧
    ¬ (([srcDup, srcDup]).map bibtexKey).Nodup := by
  refine ⟨by decide, rfl, by decide⟩

/-- C1 as amended: for every list of at most 100 papers the document has
exactly one entry per paper, and the citation keys are pairwise distinct
provided no two papers derive the same key (same word-character title prefix
and year); with duplicate titles and years the keys collide. -/
theorem bibtex_entries_and_keys (l : List Source) (_hlen : l.length ≤ 100) :
    (bibtexEntries l).length = l.length ∧
    (l.Pairwise (fun a b => bibtexKey a ≠ bibtexKey b) → (l.map bibtexKey).Nodup) := by
  refine ⟨by simp [bibtexEntries], ?_⟩
  intro h
  exact (List.pairwise_map).2 h

/-- C1 witness: at a concrete two-paper list with distinct keys. -/
theorem bibtex_entries_and_keys_witness :
    [srcLowCited, srcHighCited].length ≤ 100 ∧
    (bibtexEntries [srcLowCited, srcHighCited]).length = 2 ∧
    ([srcLowCited, srcHighCited].map bibtexKey).Nodup := by
  have h := bibtex_entries_and_keys [srcLowCited, srcHighCited] (by decide)
  exact ⟨by decide, h.1, h.2 (by decide)⟩

/-! ## C8 — missing optional fields are omitted from the entry -/

/-- C8: whenever the datum backing an optional BibTeX field is missing
(null/empty) on the paper — the author list absent or empty, the year null,
the venue, DOI, or PDF URL null or empty — the generated entry contains no
line for that field at all (the field name does not occur among the emitted
field lines), rather than a line with an empty value. -/
theorem bibtex_missing_fields_omitted (p : Source) :
    ((p.authors = none ∨ p.authors = some []) →
      "author" ∉ (bibtexFields p).map Prod.fst) ∧
    (p.year = none → "year" ∉ (bibtexFields p).map Prod.fst) ∧
    ((p.venue = none ∨ p.venue = some "") →
      "journal" ∉ (bibtexFields p).map Prod.fst) ∧
    ((p.doi = none ∨ p.doi = some "") →
      "doi" ∉ (bibtexFields p).map Prod.fst) ∧
    ((p.pdf_url = none ∨ p.pdf_url = some "") →
      "url" ∉ (bibtexFields p).map Prod.fst) := by
  refine ⟨?_, ?_, ?_, ?_, ?_⟩
  · rintro (h | h) <;> simp [bibtexFields, h, truthyLen]
  · intro h
    simp [bibtexFields, h, truthyInt]
  · rintro (h | h) <;> simp [bibtexFields, h, truthyStr]
  · rintro (h | h) <;> simp [bibtexFields, h, truthyStr]
  · rintro (h | h) <;> simp [bibtexFields, h, truthyStr]

/-- C8 witness: on the all-absent paper no optional field line is emitted. -/
theorem bibtex_missing_fields_omitted_witness :
    "author" ∉ (bibtexFields baseSource).map Prod.fst ∧
    "year" ∉ (bibtexFields baseSource).map Prod.fst ∧
    "journal" ∉ (bibtexFields baseSource).map Prod.fst ∧
    "doi" ∉ (bibtexFields baseSource).map Prod.fst ∧
    "url" ∉ (bibtexFields baseSource).map Prod.fst := by
  have h := bibtex_missing_fields_omitted baseSource
  exact ⟨h.1 (Or.inl rfl), h.2.1 rfl, h.2.2.1 (Or.inl rfl),
    h.2.2.2.1 (Or.inl rfl), h.2.2.2.2 (Or.inl rfl)⟩

end ResearchAssistant
